import Mathlib

/-!
Shallow embedding of the usage-accounting and rate-limiting core of
`src/bot_pro.py` (the Firebase usage helpers, lines 94-167, and the cooldown
check, lines 239-247), together with theorems settling the frozen claims.

Modelling conventions:

* The Firebase Realtime Database is addressed, by this code, only at five
  paths, all specialised to one user id, one day key and one month key:
  the daily-usage document `/usage/{uid}/{today}.json` with its two children
  `.../count.json` and `.../last_ts.json`, the monthly counter
  `/usage_images/{month}/total_count.json`, and the per-user limit
  `/limits/{uid}/daily.json`.  A `Store` therefore holds the four leaf
  values for a fixed (user, day, month) triple, each an `Option` because a
  Firebase location that was never written reads back as JSON `null`.
  Reading the daily document returns `null` exactly when both of its
  children are absent; a `PUT` on the document sets both children.
* Unix timestamps are `float` in Python; the claims only compare and copy
  them, never exercise rounding, so they are embedded as `ℚ`.
* Every network call (`requests.get` / `requests.put` through the
  `_async_*` wrappers) is given an outcome by an oracle `Nat → NetOutcome`,
  indexed by the position of the call within the operation:
  `ok` is a 2xx status with a well-formed JSON body, `non2xx` is a non-2xx
  response, and `malformed` is a 2xx response whose body `resp.json()`
  fails to parse, which makes the Python raise (embedded as
  `Except.error ()`), since none of these functions catch exceptions.
  The code never inspects a `PUT` response, so a `PUT` takes effect on the
  store exactly when the server answered 2xx (`ok` or `malformed`);
  transport-level exceptions of the `requests` calls themselves are not
  modelled.
* Each operation also returns the list of HTTP calls it issued, each with
  the `timeout` keyword argument it passed to `requests` (`none` when the
  call site passes no timeout, as at every ledger call site in the source).
-/

namespace BotPro

/-- Outcome of one HTTP request, as observed through the `requests`
response object. -/
inductive NetOutcome where
  | ok
  | non2xx
  | malformed
deriving DecidableEq

/-- A `PUT` takes effect on the store exactly when the server answered with
a 2xx status; the code never reads a `PUT` response body. -/
def NetOutcome.appliesWrite : NetOutcome → Bool
  | .non2xx => false
  | _ => true

/-- HTTP method of a call issued by the core. -/
inductive Method where
  | get
  | put
deriving DecidableEq

/-- One HTTP call issued by the core: its method, its path relative to
`FIREBASE_DB_URL`, and the `timeout` keyword argument passed to `requests`
(`none` when the call site passes no timeout). -/
structure Call where
  method : Method
  path : String
  timeout : Option Nat
deriving DecidableEq

/-- The slice of the Firebase Realtime Database this code addresses, for a
fixed user id, day key and month key.  `none` is a location that was never
written (reads back as JSON `null`). -/
structure Store where
  daily_count : Option Int
  daily_last_ts : Option ℚ
  monthly_total : Option Int
  daily_limit : Option Int
deriving DecidableEq

/-- The dictionary `{"count": ..., "last_ts": ...}` returned by
`get_usage`. -/
structure Usage where
  count : Int
  last_ts : ℚ
deriving DecidableEq

/-- Path of the daily-usage document, from the f-string in `get_usage`,
`set_usage` and `reset_user_daily`. -/
def usageDocPath (uid today : String) : String :=
  "/usage/" ++ uid ++ "/" ++ today ++ ".json"

/-- Path of the daily count leaf, from the f-string in `increment_usage`. -/
def usageCountPath (uid today : String) : String :=
  "/usage/" ++ uid ++ "/" ++ today ++ "/count.json"

/-- Path of the daily last-timestamp leaf, from the f-string in
`increment_usage`. -/
def usageTsPath (uid today : String) : String :=
  "/usage/" ++ uid ++ "/" ++ today ++ "/last_ts.json"

/-- Path of the monthly counter, from the f-strings in `increment_usage`,
`get_monthly_total` and `reset_monthly_total`. -/
def monthTotalPath (month : String) : String :=
  "/usage_images/" ++ month ++ "/total_count.json"

/-- Path of the per-user daily limit, from the f-string in
`get_daily_limit`. -/
def limitPath (uid : String) : String :=
  "/limits/" ++ uid ++ "/daily.json"

/-- `get_usage` (src/bot_pro.py:102-110).  When Firebase is not ready it
returns the zero dictionary without any network call; otherwise it GETs the
daily document and, on a 200 with a truthy body, extracts the two fields
with defaults, else returns the zero dictionary.  A 200 with a malformed
body raises inside `resp.json()`. -/
def get_usage (ready : Bool) (uid today : String) (o : Nat → NetOutcome)
    (s : Store) : Except Unit Usage × List Call :=
  if ready then
    let c : Call := ⟨.get, usageDocPath uid today, none⟩
    match o 0 with
    | .non2xx => (.ok ⟨0, 0⟩, [c])
    | .malformed => (.error (), [c])
    | .ok =>
        if s.daily_count = none ∧ s.daily_last_ts = none then
          (.ok ⟨0, 0⟩, [c])
        else
          (.ok ⟨s.daily_count.getD 0, s.daily_last_ts.getD 0⟩, [c])
  else
    (.ok ⟨0, 0⟩, [])

/-- `set_usage` (src/bot_pro.py:112-116): unconditional PUT of the whole
daily document; the response is ignored. -/
def set_usage (ready : Bool) (uid today : String) (count : Int)
    (last_ts : ℚ) (o : Nat → NetOutcome) (s : Store) : Store × List Call :=
  if ready then
    let s1 :=
      if (o 0).appliesWrite then
        { s with daily_count := some count, daily_last_ts := some last_ts }
      else s
    (s1, [⟨.put, usageDocPath uid today, none⟩])
  else
    (s, [])

/-- `increment_usage` (src/bot_pro.py:118-137): GET the daily count leaf,
PUT count+1, PUT `last_ts = time.time()`, GET the monthly counter, PUT
total+1.  A failed GET (non-2xx or `null` body) makes the current value 0;
a malformed 200 body raises, abandoning the remaining steps but keeping the
earlier writes.  Nothing is rolled back. -/
def increment_usage (ready : Bool) (uid today month : String) (now : ℚ)
    (o : Nat → NetOutcome) (s : Store) :
    Except Unit Unit × Store × List Call :=
  if ready then
    let cGetDay : Call := ⟨.get, usageCountPath uid today, none⟩
    if o 0 = .malformed then (.error (), s, [cGetDay])
    else
      let cur : Int := if o 0 = .ok then s.daily_count.getD 0 else 0
      let s1 :=
        if (o 1).appliesWrite then { s with daily_count := some (cur + 1) }
        else s
      let s2 :=
        if (o 2).appliesWrite then { s1 with daily_last_ts := some now }
        else s1
      let calls4 : List Call :=
        [cGetDay, ⟨.put, usageCountPath uid today, none⟩,
         ⟨.put, usageTsPath uid today, none⟩,
         ⟨.get, monthTotalPath month, none⟩]
      if o 3 = .malformed then (.error (), s2, calls4)
      else
        let curm : Int := if o 3 = .ok then s2.monthly_total.getD 0 else 0
        let s3 :=
          if (o 4).appliesWrite then
            { s2 with monthly_total := some (curm + 1) }
          else s2
        (.ok (), s3, calls4 ++ [⟨.put, monthTotalPath month, none⟩])
  else
    (.ok (), s, [])

/-- `get_daily_limit` (src/bot_pro.py:139-146), parameterised by the
configured `DEFAULT_DAILY_LIMIT`. -/
def get_daily_limit (defaultLimit : Int) (ready : Bool) (uid : String)
    (o : Nat → NetOutcome) (s : Store) : Except Unit Int × List Call :=
  if ready then
    let c : Call := ⟨.get, limitPath uid, none⟩
    match o 0, s.daily_limit with
    | .malformed, _ => (.error (), [c])
    | .ok, some v => (.ok v, [c])
    | _, _ => (.ok defaultLimit, [c])
  else
    (.ok defaultLimit, [])

/-- `get_monthly_total` (src/bot_pro.py:148-155). -/
def get_monthly_total (ready : Bool) (month : String) (o : Nat → NetOutcome)
    (s : Store) : Except Unit Int × List Call :=
  if ready then
    let c : Call := ⟨.get, monthTotalPath month, none⟩
    match o 0, s.monthly_total with
    | .malformed, _ => (.error (), [c])
    | .ok, some v => (.ok v, [c])
    | _, _ => (.ok 0, [c])
  else
    (.ok 0, [])

/-- `reset_monthly_total` (src/bot_pro.py:157-161): PUT 0 to the monthly
counter. -/
def reset_monthly_total (ready : Bool) (month : String)
    (o : Nat → NetOutcome) (s : Store) : Store × List Call :=
  if ready then
    let s1 :=
      if (o 0).appliesWrite then { s with monthly_total := some 0 } else s
    (s1, [⟨.put, monthTotalPath month, none⟩])
  else
    (s, [])

/-- `reset_user_daily` (src/bot_pro.py:163-167): PUT
`{"count": 0, "last_ts": 0.0}` to the daily document. -/
def reset_user_daily (ready : Bool) (uid today : String)
    (o : Nat → NetOutcome) (s : Store) : Store × List Call :=
  if ready then
    let s1 :=
      if (o 0).appliesWrite then
        { s with daily_count := some 0, daily_last_ts := some 0 }
      else s
    (s1, [⟨.put, usageDocPath uid today, none⟩])
  else
    (s, [])

/-- `check_and_update_cooldown` (src/bot_pro.py:240-247): read the usage,
reject without mutation when `now - last < min_gap`, otherwise write back
the document with the count it read and `last_ts = now` and admit. -/
def check_and_update_cooldown (ready : Bool) (uid today : String)
    (min_gap : Int) (now : ℚ) (o : Nat → NetOutcome) (s : Store) :
    Except Unit Bool × Store × List Call :=
  match get_usage ready uid today o s with
  | (.error e, calls) => (.error e, s, calls)
  | (.ok usage, calls) =>
      if now - usage.last_ts < (min_gap : ℚ) then
        (.ok false, s, calls)
      else
        let w := set_usage ready uid today usage.count now
          (fun i => o (calls.length + i)) s
        (.ok true, w.1, calls ++ w.2)

/-- Oracle under which every network call succeeds with a well-formed
body. -/
def allOk : Nat → NetOutcome := fun _ => .ok

/-- The empty store: nothing was ever written. -/
def store0 : Store := ⟨none, none, none, none⟩

/-- Running `increment_usage` on a ready store with every call succeeding
bumps the daily count, stamps `last_ts = now` and bumps the monthly total,
each absent value counting as 0. -/
theorem increment_usage_allOk (uid today month : String) (now : ℚ)
    (s : Store) :
    increment_usage true uid today month now allOk s =
      (.ok (),
       { s with daily_count := some (s.daily_count.getD 0 + 1),
                daily_last_ts := some now,
                monthly_total := some (s.monthly_total.getD 0 + 1) },
       [⟨.get, usageCountPath uid today, none⟩,
        ⟨.put, usageCountPath uid today, none⟩,
        ⟨.put, usageTsPath uid today, none⟩,
        ⟨.get, monthTotalPath month, none⟩,
        ⟨.put, monthTotalPath month, none⟩]) := by
  simp [increment_usage, allOk, NetOutcome.appliesWrite]

/-- Claim C1: with the store configured, the cooldown gate reads the usage,
and when `now - last_ts < min_gap` it returns `false` leaving the store
untouched, having issued no `PUT`; otherwise it returns `true` and writes
back the document with the count value it read (absent counting as 0) and
`last_ts = now`, leaving the monthly total and the limit untouched. -/
theorem check_and_update_cooldown_spec (uid today : String) (min_gap : Int)
    (now : ℚ) (s : Store) :
    check_and_update_cooldown true uid today min_gap now allOk s =
      (if now - s.daily_last_ts.getD 0 < (min_gap : ℚ) then
        (.ok false, s, [⟨.get, usageDocPath uid today, none⟩])
      else
        (.ok true,
         { s with daily_count := some (s.daily_count.getD 0),
                  daily_last_ts := some now },
         [⟨.get, usageDocPath uid today, none⟩,
          ⟨.put, usageDocPath uid today, none⟩])) := by
  by_cases hd : s.daily_count = none ∧ s.daily_last_ts = none
  · obtain ⟨h1, h2⟩ := hd
    simp [check_and_update_cooldown, get_usage, set_usage, allOk,
      NetOutcome.appliesWrite, h1, h2]
  · simp [check_and_update_cooldown, get_usage, set_usage, allOk,
      NetOutcome.appliesWrite, hd]

/-- Oracle for a run of `increment_usage` in which step 1 (GET and PUT of
the daily count) succeeds and every later call returns a non-2xx status,
so the `last_ts` PUT and the monthly GET and PUT all fail. -/
def stepOneOnly : Nat → NetOutcome := fun i =>
  if i ≤ 1 then .ok else .non2xx

/-- Claim C2: with the store configured, `increment_usage` issues exactly
the five calls GET count, PUT count, PUT last_ts, GET monthly total,
PUT monthly total, in this order — three read-then-write steps, the
timestamp write needing no read; and with no rollback: when every call
after step 1 fails, the daily count is bumped while `last_ts` and the
monthly total keep their old values. -/
theorem increment_usage_steps (uid today month : String) (now : ℚ)
    (s : Store) :
    (increment_usage true uid today month now allOk s).2.2 =
      [⟨.get, usageCountPath uid today, none⟩,
       ⟨.put, usageCountPath uid today, none⟩,
       ⟨.put, usageTsPath uid today, none⟩,
       ⟨.get, monthTotalPath month, none⟩,
       ⟨.put, monthTotalPath month, none⟩] ∧
    (increment_usage true uid today month now stepOneOnly s).2.1 =
      { s with daily_count := some (s.daily_count.getD 0 + 1) } := by
  constructor
  · simp [increment_usage_allOk]
  · simp [increment_usage, stepOneOnly, NetOutcome.appliesWrite]

/-- `increment_usage` iterated `n` times on a ready store with every call
succeeding, as in the sequential-counting property. -/
def iterate_increment (uid today month : String) (now : ℚ) :
    Nat → Store → Store
  | 0, s => s
  | n + 1, s =>
      iterate_increment uid today month now n
        (increment_usage true uid today month now allOk s).2.1

/-- Each all-success iteration adds one to the daily count and to the
monthly total, absent values counting as 0. -/
theorem iterate_increment_getD (uid today month : String) (now : ℚ) :
    ∀ (n : Nat) (s : Store),
      (iterate_increment uid today month now n s).daily_count.getD 0 =
        s.daily_count.getD 0 + n ∧
      (iterate_increment uid today month now n s).monthly_total.getD 0 =
        s.monthly_total.getD 0 + n
  | 0, s => by simp [iterate_increment]
  | n + 1, s => by
      have ih := iterate_increment_getD uid today month now n
        (increment_usage true uid today month now allOk s).2.1
      rw [iterate_increment]
      constructor
      · rw [ih.1]
        simp [increment_usage_allOk]
        ring
      · rw [ih.2]
        simp [increment_usage_allOk]
        ring

/-- Claim C3: starting from a store with no daily-usage document for the
user today, N sequential calls of `increment_usage` with every read and
write succeeding leave a stored daily count of exactly N and a monthly
total larger by exactly N than the initial one. -/
theorem iterate_increment_counts (uid today month : String) (now : ℚ)
    (s : Store) (N : Nat) (h : s.daily_count = none) :
    (iterate_increment uid today month now N s).daily_count.getD 0 =
      (N : Int) ∧
    (iterate_increment uid today month now N s).monthly_total.getD 0 =
      s.monthly_total.getD 0 + N := by
  have := iterate_increment_getD uid today month now N s
  simpa [h] using this

/-- Witness for C3: three increments on the empty store give a count of 3
and a monthly total of 3. -/
theorem iterate_increment_counts_witness :
    (iterate_increment "u" "d" "m" 100 3 store0).daily_count.getD 0 =
      (3 : Int) ∧
    (iterate_increment "u" "d" "m" 100 3 store0).monthly_total.getD 0 =
      store0.monthly_total.getD 0 + 3 :=
  iterate_increment_counts "u" "d" "m" 100 store0 3 rfl

/-- Under the all-success oracle, `get_usage` on a ready store returns the
two stored fields with absent values defaulted, in every case. -/
theorem get_usage_allOk (uid today : String) (s : Store) :
    get_usage true uid today allOk s =
      (.ok ⟨s.daily_count.getD 0, s.daily_last_ts.getD 0⟩,
       [⟨.get, usageDocPath uid today, none⟩]) := by
  by_cases hd : s.daily_count = none ∧ s.daily_last_ts = none
  · simp [get_usage, allOk, hd.1, hd.2]
  · simp [get_usage, allOk, hd]

/-- Counterexample to claim C4: on a 200 response whose body is malformed,
`get_usage` raises (the uncaught exception of `resp.json()`) instead of
returning the zero dictionary. -/
theorem get_usage_malformed_raises :
    (get_usage true "u" "d" (fun _ => .malformed) store0).1 =
        .error () ∧
      (get_usage true "u" "d" (fun _ => .malformed) store0).1 ≠
        .ok ⟨0, 0⟩ := by
  constructor
  · rfl
  · intro h
    simp [get_usage] at h

/-- Claim C4 as amended: `get_usage` returns the zero dictionary when the
store answers non-2xx or when the document is absent, without raising;
but a 2xx response with a malformed payload propagates an exception to the
caller. -/
theorem get_usage_defaults (uid today : String) (o : Nat → NetOutcome)
    (s : Store) :
    (o 0 = .non2xx → (get_usage true uid today o s).1 = .ok ⟨0, 0⟩) ∧
    (o 0 = .ok → s.daily_count = none → s.daily_last_ts = none →
      (get_usage true uid today o s).1 = .ok ⟨0, 0⟩) ∧
    (o 0 = .malformed → (get_usage true uid today o s).1 = .error ()) := by
  refine ⟨fun h => ?_, fun h h1 h2 => ?_, fun h => ?_⟩
  · simp [get_usage, h]
  · simp [get_usage, h, h1, h2]
  · simp [get_usage, h]

/-- Witness for the amended C4: a non-2xx read on the empty store yields
the zero dictionary. -/
theorem get_usage_defaults_witness :
    (get_usage true "u" "d" (fun _ => .non2xx) store0).1 = .ok ⟨0, 0⟩ :=
  (get_usage_defaults "u" "d" (fun _ => .non2xx) store0).1 rfl

/-- Claim C5: with Firebase not configured, every ledger operation touches
no state and issues no network call, the readers return their hard-coded
defaults, and the cooldown gate admits whenever the clock is at least the
gap (as a unix timestamp always is). -/
theorem ledger_unready_defaults (defaultLimit : Int)
    (uid today month : String) (cnt : Int) (ts now : ℚ) (min_gap : Int)
    (o : Nat → NetOutcome) (s : Store) (h : (min_gap : ℚ) ≤ now) :
    get_usage false uid today o s = (.ok ⟨0, 0⟩, []) ∧
    get_daily_limit defaultLimit false uid o s = (.ok defaultLimit, []) ∧
    get_monthly_total false month o s = (.ok 0, []) ∧
    set_usage false uid today cnt ts o s = (s, []) ∧
    increment_usage false uid today month now o s = (.ok (), s, []) ∧
    reset_user_daily false uid today o s = (s, []) ∧
    reset_monthly_total false month o s = (s, []) ∧
    check_and_update_cooldown false uid today min_gap now o s =
      (.ok true, s, []) := by
  refine ⟨rfl, rfl, rfl, rfl, rfl, rfl, rfl, ?_⟩
  have hnot : ¬ now - (0 : ℚ) < (min_gap : ℚ) := by
    rw [sub_zero]
    exact not_lt.mpr h
  simp only [check_and_update_cooldown, get_usage, set_usage]
  simp [hnot]
  exact h

/-- Witness for C5: with the store unconfigured, the cooldown gate admits
at time 100 with a 5 second gap, touching nothing. -/
theorem ledger_unready_defaults_witness :
    check_and_update_cooldown false "u" "d" 5 100 allOk store0 =
      (.ok true, store0, []) :=
  (ledger_unready_defaults 10 "u" "d" "m" 0 0 100 5 allOk store0
    (by norm_num)).2.2.2.2.2.2.2

/-- Claim C8: `reset_user_daily` overwrites today's document with the zero
values whatever was there before, and a following `get_usage` returns the
zero dictionary. -/
theorem reset_then_get (uid today : String) (s : Store) :
    (reset_user_daily true uid today allOk s).1.daily_count = some 0 ∧
    (reset_user_daily true uid today allOk s).1.daily_last_ts = some 0 ∧
    (get_usage true uid today allOk
        (reset_user_daily true uid today allOk s).1).1 = .ok ⟨0, 0⟩ := by
  refine ⟨?_, ?_, ?_⟩ <;>
    simp [reset_user_daily, get_usage_allOk, allOk, NetOutcome.appliesWrite]

/-- Counterexample to claim C9: with an override of 7 stored and a default
of 10, a 200 response with a malformed payload makes `get_daily_limit`
raise instead of returning the default. -/
theorem get_daily_limit_malformed_raises :
    (get_daily_limit 10 true "u" (fun _ => .malformed)
        ⟨none, none, none, some 7⟩).1 = .error () ∧
      (get_daily_limit 10 true "u" (fun _ => .malformed)
        ⟨none, none, none, some 7⟩).1 ≠ .ok 10 := by
  constructor
  · rfl
  · intro h
    simp [get_daily_limit] at h

/-- Claim C9 as amended: `get_daily_limit` returns the stored override when
the read succeeds and the override is present, and the configured default
when the override is absent, the read answers non-2xx, or the store is not
configured; a 2xx response with a malformed payload raises instead. -/
theorem get_daily_limit_spec (defaultLimit : Int) (uid : String)
    (o : Nat → NetOutcome) (s : Store) :
    (o 0 = .ok → (get_daily_limit defaultLimit true uid o s).1 =
      .ok (s.daily_limit.getD defaultLimit)) ∧
    (o 0 = .non2xx → (get_daily_limit defaultLimit true uid o s).1 =
      .ok defaultLimit) ∧
    (o 0 = .malformed → (get_daily_limit defaultLimit true uid o s).1 =
      .error ()) ∧
    (get_daily_limit defaultLimit false uid o s).1 = .ok defaultLimit := by
  refine ⟨fun h => ?_, fun h => ?_, fun h => ?_, rfl⟩ <;>
    cases hl : s.daily_limit <;> simp [get_daily_limit, h, hl]

/-- Witness for the amended C9: with an override of 7 stored, a successful
read returns 7, not the default 10. -/
theorem get_daily_limit_spec_witness :
    (get_daily_limit 10 true "u" allOk ⟨none, none, none, some 7⟩).1 =
      .ok 7 :=
  (get_daily_limit_spec 10 "u" allOk ⟨none, none, none, some 7⟩).1 rfl

/-- Oracle under which both GETs of `increment_usage` answer non-2xx while
all PUTs succeed. -/
def readsFail : Nat → NetOutcome := fun i =>
  if i = 0 ∨ i = 3 then .non2xx else .ok

/-- Claim C10: when the reads inside `increment_usage` fail with non-2xx,
the current values are taken to be 0 and 1 is written back, clobbering any
larger persisted daily count and monthly total: a failed read strictly
decreases the stored values. -/
theorem increment_usage_failed_read_clobbers (uid today month : String)
    (now : ℚ) (c m : Int) (s : Store) (hc : s.daily_count = some c)
    (hm : s.monthly_total = some m) :
    (increment_usage true uid today month now readsFail s).2.1.daily_count =
      some 1 ∧
    (increment_usage true uid today month now readsFail
        s).2.1.monthly_total = some 1 ∧
    (1 < c →
      (increment_usage true uid today month now readsFail
          s).2.1.daily_count.getD 0 < s.daily_count.getD 0) ∧
    (1 < m →
      (increment_usage true uid today month now readsFail
          s).2.1.monthly_total.getD 0 < s.monthly_total.getD 0) := by
  refine ⟨?_, ?_, fun h => ?_, fun h => ?_⟩
  · simp [increment_usage, readsFail, NetOutcome.appliesWrite, hc, hm]
  · simp [increment_usage, readsFail, NetOutcome.appliesWrite, hc, hm]
  · simp [increment_usage, readsFail, NetOutcome.appliesWrite, hc, hm, h]
  · simp [increment_usage, readsFail, NetOutcome.appliesWrite, hc, hm, h]

/-- Witness for C10: a store holding a daily count of 5 and a monthly total
of 5 is overwritten with 1 and 1 when both reads fail. -/
theorem increment_usage_failed_read_clobbers_witness :
    (increment_usage true "u" "d" "m" 100 readsFail
        ⟨some 5, none, some 5, none⟩).2.1.daily_count = some 1 ∧
    (increment_usage true "u" "d" "m" 100 readsFail
        ⟨some 5, none, some 5, none⟩).2.1.daily_count.getD 0 <
      (Store.mk (some 5) none (some 5) none).daily_count.getD 0 :=
  ⟨(increment_usage_failed_read_clobbers "u" "d" "m" 100 5 5
      ⟨some 5, none, some 5, none⟩ rfl rfl).1,
   (increment_usage_failed_read_clobbers "u" "d" "m" 100 5 5
      ⟨some 5, none, some 5, none⟩ rfl rfl).2.2.1 (by norm_num)⟩

/-- Reindexing the all-success oracle yields the all-success oracle. -/
theorem allOk_comp (f : Nat → Nat) : (fun i => allOk (f i)) = allOk := rfl

/-- Under the all-success oracle, `get_daily_limit` on a ready store
returns the stored override defaulted to the configured limit. -/
theorem get_daily_limit_allOk (defaultLimit : Int) (uid : String)
    (s : Store) :
    get_daily_limit defaultLimit true uid allOk s =
      (.ok (s.daily_limit.getD defaultLimit),
       [⟨.get, limitPath uid, none⟩]) := by
  cases hl : s.daily_limit <;> simp [get_daily_limit, allOk, hl]

/-- Under the all-success oracle, `get_monthly_total` on a ready store
returns the stored total defaulted to 0. -/
theorem get_monthly_total_allOk (month : String) (s : Store) :
    get_monthly_total true month allOk s =
      (.ok (s.monthly_total.getD 0),
       [⟨.get, monthTotalPath month, none⟩]) := by
  cases hm : s.monthly_total <;> simp [get_monthly_total, allOk, hm]

/-- Under the all-success oracle, an admitting run of the cooldown gate
writes back the count it read with `last_ts = now`. -/
theorem cooldown_allOk_admit (uid today : String) (min_gap : Int) (now : ℚ)
    (s : Store) (h : ¬ now - s.daily_last_ts.getD 0 < (min_gap : ℚ)) :
    check_and_update_cooldown true uid today min_gap now allOk s =
      (.ok true,
       { s with daily_count := some (s.daily_count.getD 0),
                daily_last_ts := some now },
       [⟨.get, usageDocPath uid today, none⟩,
        ⟨.put, usageDocPath uid today, none⟩]) := by
  simp [check_and_update_cooldown, get_usage_allOk, set_usage, allOk,
    NetOutcome.appliesWrite, h]

/-- Outcome of the admission pipeline, from the spec's command surface
`admit_and_record(user_id) -> Admitted | CooldownRejected | QuotaExceeded`,
with a failed external generation surfaced as a distinct outcome so that
quota is not consumed. -/
inductive AdmitOutcome where
  | Admitted
  | CooldownRejected
  | QuotaExceeded
  | GenFailed
deriving DecidableEq

/-- Modelled from the spec: the Telegram command handlers that sequence the
gates are missing from the source (src/bot_pro.py:249-251 is only a
placeholder comment), so the Quota Gate test is taken from the spec's
words: admit only if `count < daily_limit` AND `monthly_total <
monthly_cap`. -/
def quota_admits (count daily_limit monthly_total monthly_cap : Int) :
    Bool :=
  decide (count < daily_limit) && decide (monthly_total < monthly_cap)

/-- Modelled from the spec: the admission pipeline of a handled command,
whose handler code is missing from the source (src/bot_pro.py:249-251 is
only a placeholder comment).  Per the spec's control flow, the Cooldown
Gate runs first, then the Quota Gate fetches the usage, the per-user limit
and the monthly total and admits by `quota_admits`, then the external
generation call runs (its success is the input `gen_ok`), and
`increment_usage` is called only on generation success.  All store
operations are the ones embedded from the source. -/
def admit_and_record (defaultLimit monthly_cap : Int) (ready : Bool)
    (uid today month : String) (min_gap : Int) (now : ℚ) (gen_ok : Bool)
    (o : Nat → NetOutcome) (s : Store) :
    Except Unit AdmitOutcome × Store :=
  match check_and_update_cooldown ready uid today min_gap now o s with
  | (.error e, s1, _) => (.error e, s1)
  | (.ok false, s1, _) => (.ok .CooldownRejected, s1)
  | (.ok true, s1, calls1) =>
      let o1 := fun i => o (calls1.length + i)
      match get_usage ready uid today o1 s1 with
      | (.error e, _) => (.error e, s1)
      | (.ok usage, calls2) =>
          let o2 := fun i => o1 (calls2.length + i)
          match get_daily_limit defaultLimit ready uid o2 s1 with
          | (.error e, _) => (.error e, s1)
          | (.ok lim, calls3) =>
              let o3 := fun i => o2 (calls3.length + i)
              match get_monthly_total ready month o3 s1 with
              | (.error e, _) => (.error e, s1)
              | (.ok mtot, calls4) =>
                  if quota_admits usage.count lim mtot monthly_cap then
                    if gen_ok then
                      let o4 := fun i => o3 (calls4.length + i)
                      match increment_usage ready uid today month now o4
                          s1 with
                      | (.error e, s2, _) => (.error e, s2)
                      | (.ok _, s2, _) => (.ok .Admitted, s2)
                    else (.ok .GenFailed, s1)
                  else (.ok .QuotaExceeded, s1)

/-- Claim C6: the Quota Gate admits exactly when `count < daily_limit` and
`monthly_total < monthly_cap` (in particular it rejects at `count =
daily_limit`); and in the admission pipeline a successful generation
increments the count while a failed generation or a quota rejection leaves
the daily count value and the monthly total unchanged. -/
theorem quota_gate_spec (defaultLimit monthly_cap : Int)
    (uid today month : String) (min_gap : Int) (now : ℚ) (gen_ok : Bool)
    (s : Store)
    (hcool : ¬ now - s.daily_last_ts.getD 0 < (min_gap : ℚ)) :
    (quota_admits (s.daily_count.getD 0) (s.daily_limit.getD defaultLimit)
        (s.monthly_total.getD 0) monthly_cap = true ↔
      (s.daily_count.getD 0 < s.daily_limit.getD defaultLimit ∧
        s.monthly_total.getD 0 < monthly_cap)) ∧
    quota_admits (s.daily_limit.getD defaultLimit)
        (s.daily_limit.getD defaultLimit) (s.monthly_total.getD 0)
        monthly_cap = false ∧
    (s.daily_count.getD 0 < s.daily_limit.getD defaultLimit →
      s.monthly_total.getD 0 < monthly_cap →
      admit_and_record defaultLimit monthly_cap true uid today month
          min_gap now true allOk s =
        (.ok .Admitted,
         { s with daily_count := some (s.daily_count.getD 0 + 1),
                  daily_last_ts := some now,
                  monthly_total := some (s.monthly_total.getD 0 + 1) })) ∧
    (¬ (s.daily_count.getD 0 < s.daily_limit.getD defaultLimit ∧
        s.monthly_total.getD 0 < monthly_cap) →
      admit_and_record defaultLimit monthly_cap true uid today month
          min_gap now gen_ok allOk s =
        (.ok .QuotaExceeded,
         { s with daily_count := some (s.daily_count.getD 0),
                  daily_last_ts := some now })) ∧
    (s.daily_count.getD 0 < s.daily_limit.getD defaultLimit →
      s.monthly_total.getD 0 < monthly_cap →
      admit_and_record defaultLimit monthly_cap true uid today month
          min_gap now false allOk s =
        (.ok .GenFailed,
         { s with daily_count := some (s.daily_count.getD 0),
                  daily_last_ts := some now })) := by
  refine ⟨?_, ?_, fun h1 h2 => ?_, fun h12 => ?_, fun h1 h2 => ?_⟩
  · simp [quota_admits]
  · simp [quota_admits]
  · simp only [admit_and_record, cooldown_allOk_admit uid today min_gap now
      s hcool, allOk_comp, get_usage_allOk, get_daily_limit_allOk,
      get_monthly_total_allOk, increment_usage_allOk]
    simp [quota_admits, h1, h2]
  · simp only [admit_and_record, cooldown_allOk_admit uid today min_gap now
      s hcool, allOk_comp, get_usage_allOk, get_daily_limit_allOk,
      get_monthly_total_allOk, quota_admits, Bool.and_eq_true,
      decide_eq_true_eq, Option.getD_some]
    rw [if_neg h12]
  · simp only [admit_and_record, cooldown_allOk_admit uid today min_gap now
      s hcool, allOk_comp, get_usage_allOk, get_daily_limit_allOk,
      get_monthly_total_allOk]
    simp [quota_admits, h1, h2]

/-- Witness for C6: on the empty store with default limit 10 and monthly
cap 100, at time 100 with a 5 second gap, a run with a failed generation
ends `GenFailed` with the daily count still 0. -/
theorem quota_gate_spec_witness :
    admit_and_record 10 100 true "u" "d" "m" 5 100 false allOk store0 =
      (.ok .GenFailed, ⟨some 0, some 100, none, none⟩) :=
  (quota_gate_spec 10 100 "u" "d" "m" 5 100 false store0
    (by norm_num [store0])).2.2.2.2 (by norm_num [store0])
    (by norm_num [store0])

/-- Whatever the network outcomes, a ready `get_usage` issues exactly one
GET of the daily document. -/
theorem get_usage_calls (uid today : String) (o : Nat → NetOutcome)
    (s : Store) :
    (get_usage true uid today o s).2 =
      [⟨.get, usageDocPath uid today, none⟩] := by
  cases h : o 0
  case ok => simp [get_usage, h]; split <;> rfl
  all_goals simp [get_usage, h]

/-- Whatever the network outcomes, a ready `set_usage` issues exactly one
PUT of the daily document. -/
theorem set_usage_calls (uid today : String) (cnt : Int) (ts : ℚ)
    (o : Nat → NetOutcome) (s : Store) :
    (set_usage true uid today cnt ts o s).2 =
      [⟨.put, usageDocPath uid today, none⟩] := by
  simp [set_usage]

/-- Whatever the network outcomes, a ready `increment_usage` issues its
fixed call sequence, cut short after a GET whose 2xx body is malformed
(which raises). -/
theorem increment_usage_calls (uid today month : String) (now : ℚ)
    (o : Nat → NetOutcome) (s : Store) :
    (increment_usage true uid today month now o s).2.2 =
      if o 0 = .malformed then [⟨.get, usageCountPath uid today, none⟩]
      else if o 3 = .malformed then
        [⟨.get, usageCountPath uid today, none⟩,
         ⟨.put, usageCountPath uid today, none⟩,
         ⟨.put, usageTsPath uid today, none⟩,
         ⟨.get, monthTotalPath month, none⟩]
      else
        [⟨.get, usageCountPath uid today, none⟩,
         ⟨.put, usageCountPath uid today, none⟩,
         ⟨.put, usageTsPath uid today, none⟩,
         ⟨.get, monthTotalPath month, none⟩,
         ⟨.put, monthTotalPath month, none⟩] := by
  by_cases h0 : o 0 = .malformed
  · simp [increment_usage, h0]
  · by_cases h3 : o 3 = .malformed <;> simp [increment_usage, h0, h3]

/-- Whatever the network outcomes, a ready `get_daily_limit` issues
exactly one GET of the limit path. -/
theorem get_daily_limit_calls (defaultLimit : Int) (uid : String)
    (o : Nat → NetOutcome) (s : Store) :
    (get_daily_limit defaultLimit true uid o s).2 =
      [⟨.get, limitPath uid, none⟩] := by
  cases h : o 0 <;> cases hl : s.daily_limit <;>
    simp [get_daily_limit, h, hl]

/-- Whatever the network outcomes, a ready `get_monthly_total` issues
exactly one GET of the monthly counter. -/
theorem get_monthly_total_calls (month : String) (o : Nat → NetOutcome)
    (s : Store) :
    (get_monthly_total true month o s).2 =
      [⟨.get, monthTotalPath month, none⟩] := by
  cases h : o 0 <;> cases hm : s.monthly_total <;>
    simp [get_monthly_total, h, hm]

/-- Whatever the network outcomes, a ready `reset_user_daily` issues
exactly one PUT of the daily document. -/
theorem reset_user_daily_calls (uid today : String) (o : Nat → NetOutcome)
    (s : Store) :
    (reset_user_daily true uid today o s).2 =
      [⟨.put, usageDocPath uid today, none⟩] := by
  simp [reset_user_daily]

/-- Whatever the network outcomes, a ready `reset_monthly_total` issues
exactly one PUT of the monthly counter. -/
theorem reset_monthly_total_calls (month : String) (o : Nat → NetOutcome)
    (s : Store) :
    (reset_monthly_total true month o s).2 =
      [⟨.put, monthTotalPath month, none⟩] := by
  simp [reset_monthly_total]

/-- Whatever the network outcomes, a ready cooldown check issues the GET
of the daily document and at most one PUT of it. -/
theorem check_and_update_cooldown_calls (uid today : String)
    (min_gap : Int) (now : ℚ) (o : Nat → NetOutcome) (s : Store) :
    (check_and_update_cooldown true uid today min_gap now o s).2.2 =
        [⟨.get, usageDocPath uid today, none⟩] ∨
      (check_and_update_cooldown true uid today min_gap now o s).2.2 =
        [⟨.get, usageDocPath uid today, none⟩,
         ⟨.put, usageDocPath uid today, none⟩] := by
  have hc := get_usage_calls uid today o s
  rcases hg : get_usage true uid today o s with ⟨r, calls⟩
  rw [hg] at hc
  simp only [] at hc
  cases r with
  | error e =>
      left
      simp [check_and_update_cooldown, hg, hc]
  | ok usage =>
      by_cases hlt : now - usage.last_ts < (min_gap : ℚ)
      · left
        simp [check_and_update_cooldown, hg, hc, hlt]
      · right
        simp [check_and_update_cooldown, hg, hc, hlt, set_usage]

/-- Counterexample to claim C7: the GET issued by `get_usage` passes no
`timeout` keyword to `requests.get` (only the external Vertex call at
src/bot_pro.py:219 passes one), so not every store call carries an
explicit timeout. -/
theorem ledger_call_without_timeout :
    ((get_usage true "u" "d" allOk store0).2.all
      (fun c => c.timeout.isSome)) = false := by
  rfl

/-- Claim C7 as amended: no store GET or PUT issued by the ledger
operations passes an explicit timeout (each call site uses the `requests`
default of no timeout), and within the core no call is retried: whatever
the network outcomes, each operation issues at most its fixed bounded
sequence of calls, one attempt per step. -/
theorem ledger_calls_no_timeout_no_retry (defaultLimit : Int)
    (uid today month : String) (cnt : Int) (ts now : ℚ) (min_gap : Int)
    (o : Nat → NetOutcome) (s : Store) :
    ((get_usage true uid today o s).2.all
        (fun c => c.timeout.isNone)) = true ∧
    (get_usage true uid today o s).2.length ≤ 1 ∧
    ((set_usage true uid today cnt ts o s).2.all
        (fun c => c.timeout.isNone)) = true ∧
    (set_usage true uid today cnt ts o s).2.length ≤ 1 ∧
    ((increment_usage true uid today month now o s).2.2.all
        (fun c => c.timeout.isNone)) = true ∧
    (increment_usage true uid today month now o s).2.2.length ≤ 5 ∧
    ((get_daily_limit defaultLimit true uid o s).2.all
        (fun c => c.timeout.isNone)) = true ∧
    (get_daily_limit defaultLimit true uid o s).2.length ≤ 1 ∧
    ((get_monthly_total true month o s).2.all
        (fun c => c.timeout.isNone)) = true ∧
    (get_monthly_total true month o s).2.length ≤ 1 ∧
    ((reset_user_daily true uid today o s).2.all
        (fun c => c.timeout.isNone)) = true ∧
    (reset_user_daily true uid today o s).2.length ≤ 1 ∧
    ((reset_monthly_total true month o s).2.all
        (fun c => c.timeout.isNone)) = true ∧
    (reset_monthly_total true month o s).2.length ≤ 1 ∧
    ((check_and_update_cooldown true uid today min_gap now o s).2.2.all
        (fun c => c.timeout.isNone)) = true ∧
    (check_and_update_cooldown true uid today min_gap now o s).2.2.length
      ≤ 2 := by
  refine ⟨?_, ?_, ?_, ?_, ?_, ?_, ?_, ?_, ?_, ?_, ?_, ?_, ?_, ?_, ?_, ?_⟩
  · rw [get_usage_calls]
    rfl
  · rw [get_usage_calls]
    simp
  · rw [set_usage_calls]
    rfl
  · rw [set_usage_calls]
    simp
  · rw [increment_usage_calls]
    split
    · rfl
    · split <;> rfl
  · rw [increment_usage_calls]
    split
    · simp
    · split <;> simp
  · rw [get_daily_limit_calls]
    rfl
  · rw [get_daily_limit_calls]
    simp
  · rw [get_monthly_total_calls]
    rfl
  · rw [get_monthly_total_calls]
    simp
  · rw [reset_user_daily_calls]
    rfl
  · rw [reset_user_daily_calls]
    simp
  · rw [reset_monthly_total_calls]
    rfl
  · rw [reset_monthly_total_calls]
    simp
  · rcases check_and_update_cooldown_calls uid today min_gap now o s with
      h | h <;> rw [h] <;> rfl
  · rcases check_and_update_cooldown_calls uid today min_gap now o s with
      h | h <;> rw [h] <;> simp

end BotPro
